import Mathlib

/-!
Verification of the connection-manager and chain-monitor components of the
SmartMeshFoundation raiden-network node (src/connectionmanager.go and
src/blockchain/alarmtask.go), as a shallow embedding in Lean 4.

Machine integers (int64) are modelled as Int: every quantity involved stays far
below 2^63, so wrap-around never occurs on any execution considered here.
Go float64 values are modelled exactly, as dyadic numbers m * 2^e together with
round-to-nearest, ties-to-even at 53 significand bits; this is exact IEEE-754
binary64 behaviour on the whole normal range, which covers every value these
programs can produce (subnormal and overflow thresholds are never approached).
External ledger calls (open, deposit, close) are modelled as emitted operation
lists; the channel registry read by the manager is a read-only snapshot, as the
design documents state.
-/

set_option maxRecDepth 10000
set_option linter.unusedVariables false

namespace RaidenNetwork

/-! ## Exact binary64 arithmetic -/

/-- Fuelled binary logarithm on Nat; exact floor of log2 once fuel ≥ n. -/
def log2fuel : Nat → Nat → Nat
  | 0, _ => 0
  | fuel+1, n => if n ≥ 2 then log2fuel fuel (n / 2) + 1 else 0

/-- Floor of the binary logarithm of a natural number (0 for inputs below 2). -/
def natLog2 (n : Nat) : Nat := log2fuel n n

/-- Floor of the binary logarithm of the positive rational a / b. -/
def fracLog2 (a b : Nat) : Int :=
  let d := natLog2 a
  let e := natLog2 b
  let geTest : Bool := if e ≤ d then decide (b * 2 ^ (d - e) ≤ a) else decide (b ≤ a * 2 ^ (e - d))
  if geTest then (d : Int) - (e : Int) else (d : Int) - (e : Int) - 1

/-- Nearest integer to the nonnegative fraction a / b, ties to even. -/
def roundHalfEven (a b : Nat) : Nat :=
  let n := a / b
  let r := a % b
  if 2 * r < b then n
  else if b < 2 * r then n + 1
  else if n % 2 = 0 then n else n + 1

/-- A binary64 value, exactly: the dyadic number m * 2 ^ e. -/
structure F64 where
  m : Int
  e : Int
deriving DecidableEq, Repr

/-- Round the rational a / b (b positive) to the nearest binary64 value,
ties to even, exact on the normal range. -/
def roundQ (a : Int) (b : Nat) : F64 :=
  if a = 0 then ⟨0, 0⟩
  else
    let n := a.natAbs
    let sh : Int := fracLog2 n b - 52
    let m :=
      if 0 ≤ sh then roundHalfEven n (b * 2 ^ sh.toNat)
      else roundHalfEven (n * 2 ^ (-sh).toNat) b
    if a < 0 then ⟨-(m : Int), sh⟩ else ⟨(m : Int), sh⟩

/-- Round the dyadic number m * 2 ^ e to binary64. -/
def roundDyadic (m e : Int) : F64 :=
  if 0 ≤ e then roundQ (m * 2 ^ e.toNat) 1 else roundQ m (2 ^ (-e).toNat)

/-- Conversion int64 → float64 (rounds to nearest). -/
def f64ofInt (n : Int) : F64 := roundQ n 1

/-- The float64 literal 1. -/
def f64one : F64 := ⟨1, 0⟩

/-- Exact binary64 subtraction x - y. -/
def f64sub (x y : F64) : F64 :=
  let e := min x.e y.e
  roundDyadic (x.m * 2 ^ (x.e - e).toNat - y.m * 2 ^ (y.e - e).toNat) e

/-- Exact binary64 multiplication. -/
def f64mul (x y : F64) : F64 := roundDyadic (x.m * y.m) (x.e + y.e)

/-- Exact binary64 division x / y (y nonzero on every use below). -/
def f64div (x y : F64) : F64 :=
  let a := if y.m < 0 then -x.m else x.m
  let b := y.m.natAbs
  let e := x.e - y.e
  if 0 ≤ e then roundQ (a * 2 ^ e.toNat) b else roundQ a (b * 2 ^ (-e).toNat)

/-- Go conversion int64(x) of a float64: truncation toward zero. -/
def f64toInt64 (x : F64) : Int :=
  if 0 ≤ x.e then x.m * 2 ^ x.e.toNat else Int.tdiv x.m (2 ^ (-x.e).toNat)

/-- The exact rational value of a binary64 datum. -/
def f64val (x : F64) : ℚ := (x.m : ℚ) * (2 : ℚ) ^ x.e

/-! ## Data model of the connection manager (src/connectionmanager.go)

Addresses (common.Address) are modelled as Nat. A Channel carries the fields the
manager reads: its state (transfer.CHANNEL_STATE_*), ContractBalance, the length
of its ReceivedTransfers list, and PartnerState.Address. The set of channels of
the token network (api.GetChannelList) and the node list of the channel graph
(channelGraph.AllNodes) are read-only snapshots held in the manager record;
blockedToken models membership of this tokenAddress in
raiden.MessageHandler.blockedTokens. -/

/-- The channel states the connection manager inspects. -/
inductive ChannelState where
  | opened
  | closed
  | settled
  | other
deriving DecidableEq, Repr

/-- The projection of channel.Channel read by the connection manager. -/
structure Channel where
  state : ChannelState
  contractBalance : Int
  receivedTransfers : Nat
  partnerAddress : Nat
deriving DecidableEq, Repr

/-- The ConnectionManager record together with the read-only views it consults. -/
structure ConnectionManager where
  BOOTSTRAP_ADDR : Nat
  nodeAddress : Nat
  blockedToken : Bool
  channels : List Channel
  allNodes : List Nat
  funds : Int
  initChannelTarget : Int
  joinableFundsTarget : F64

/-- A ledger call issued through the RaidenApi. -/
inductive Op where
  | openChannel (partner : Nat)
  | deposit (partner : Nat) (amount : Int)
  | closeChannel (partner : Nat)
deriving DecidableEq, Repr

/-- Outcomes of the external api calls made by openAndDeposit: whether api.Open
fails for a partner, whether the partner is then found in
Token2ChannelGraph.PartenerAddress2Channel, and whether api.Deposit fails. -/
structure ApiEnv where
  openFails : Nat → Bool
  graphHas : Nat → Bool
  depositFails : Nat → Bool

/-- openChannels: the channels of the token network in state CHANNEL_STATE_OPENED. -/
def ConnectionManager.openChannels (cm : ConnectionManager) : List Channel :=
  cm.channels.filter (fun c => c.state = ChannelState.opened)

/-- sumDeposits: sum of ContractBalance over the open channels. -/
def ConnectionManager.sumDeposits (cm : ConnectionManager) : Int :=
  cm.openChannels.foldl (fun s c => s + c.contractBalance) 0

/-- initialFundingPerPartner: int64(float64(funds) * (1 - joinableFundsTarget) /
float64(initChannelTarget)) when the target is positive, else 0; the float64
arithmetic is modelled exactly. -/
def ConnectionManager.initialFundingPerPartner (cm : ConnectionManager) : Int :=
  if 0 < cm.initChannelTarget then
    let f1 := f64ofInt cm.funds
    let f2 := f64ofInt cm.initChannelTarget
    f64toInt64 (f64div (f64mul f1 (f64sub f64one cm.joinableFundsTarget)) f2)
  else 0

/-- fundsRemaining: funds minus the already deposited amounts, 0 when no funds. -/
def ConnectionManager.fundsRemaining (cm : ConnectionManager) : Int :=
  if 0 < cm.funds then cm.funds - cm.sumDeposits else 0

/-- receivingChannels: the open channels with a nonempty ReceivedTransfers list. -/
def ConnectionManager.receivingChannels (cm : ConnectionManager) : List Channel :=
  cm.openChannels.filter (fun c => 0 < c.receivedTransfers)

/-- LeaveState: the token is in blockedTokens or the channel target is below 1. -/
def ConnectionManager.LeaveState (cm : ConnectionManager) : Bool :=
  cm.blockedToken || decide (cm.initChannelTarget < 1)

/-- closeAll: zeroes the channel target, selects the channels to close
(receivingChannels when onlyReceiving, else all open channels) and calls
api.Close on each of them; Close errors are only logged. -/
def ConnectionManager.closeAll (cm : ConnectionManager) (onlyReceiving : Bool) :
    ConnectionManager × List Channel × List Op :=
  let cm2 := { cm with initChannelTarget := 0 }
  let channelsToClose := if onlyReceiving then cm2.receivingChannels else cm2.openChannels
  (cm2, channelsToClose, channelsToClose.map (fun c => Op.closeChannel c.partnerAddress))

/-- Leave: records the token in blockedTokens, zeroes the channel target and
closes channels through closeAll. The Go method then blocks in WaitForSettle on
the returned channel list; that polling loop is modelled separately by
WaitForSettle below. -/
def ConnectionManager.Leave (cm : ConnectionManager) (onlyReceiving : Bool) :
    ConnectionManager × List Channel × List Op :=
  let cm2 := { cm with blockedToken := true }
  let cm3 := if 0 < cm2.initChannelTarget then { cm2 with initChannelTarget := 0 } else cm2
  cm3.closeAll onlyReceiving

/-- The outer loop of WaitForSettle, fuelled. poll t gives the states of the
channels in closedChannels as observed by the t-th iteration; found is the
variable of the same name, declared once before the loop and never reset. The
value none means the loop has not returned within the given fuel. -/
def waitForSettleLoop (poll : Nat → List ChannelState) : Bool → Nat → Nat → Option Bool
  | _, _, 0 => none
  | found, t, fuel+1 =>
    let found2 := found || (poll t).any (fun s => s ≠ ChannelState.settled)
    if found2 then waitForSettleLoop poll found2 (t+1) fuel
    else some true

/-- WaitForSettle: polls the closed channels once a minute until it observes no
unsettled channel; returns true on exit. Modelled with fuel: some true exactly
when the Go loop returns within fuel iterations. -/
def ConnectionManager.WaitForSettle (poll : Nat → List ChannelState) (fuel : Nat) : Option Bool :=
  waitForSettleLoop poll false 0 fuel

/-- openAndDeposit: api.Open for the partner (an error aborts), then the graph
lookup (a missing partner aborts), then api.Deposit (its error is logged and
returned). Returns the ledger calls issued and whether a nil error results. -/
def ConnectionManager.openAndDeposit (env : ApiEnv) (cm : ConnectionManager)
    (partner : Nat) (fundingAmount : Int) : List Op × Bool :=
  if env.openFails partner then ([Op.openChannel partner], false)
  else if env.graphHas partner then
    ([Op.openChannel partner, Op.deposit partner fundingAmount], !env.depositFails partner)
  else ([Op.openChannel partner], false)

/-- findNewPartners: known collects the partners of open channels, the bootstrap
placeholder and the own node address; the candidates are the graph nodes not in
known, truncated to the requested number. -/
def ConnectionManager.findNewPartners (cm : ConnectionManager) (number : Nat) : List Nat :=
  let known := cm.openChannels.map (fun c => c.partnerAddress) ++ [cm.BOOTSTRAP_ADDR, cm.nodeAddress]
  let availables := cm.allNodes.filter (fun n => !(known.contains n))
  if number < availables.length then availables.take number else availables

/-- The loop of addNewPartners: openAndDeposit for each selected partner in
order, stopping at the first error. -/
def addNewPartnersLoop (env : ApiEnv) (cm : ConnectionManager) (amount : Int) :
    List Nat → List Op × Bool
  | [] => ([], true)
  | p :: rest =>
    let r := cm.openAndDeposit env p amount
    if r.2 then
      let r2 := addNewPartnersLoop env cm amount rest
      (r.1 ++ r2.1, r2.2)
    else (r.1, false)

/-- addNewPartners: a no-op when initChannelTarget minus the open-channel count
is not positive; otherwise opens and funds the partners found by
findNewPartners, each with initialFundingPerPartner. -/
def ConnectionManager.addNewPartners (env : ApiEnv) (cm : ConnectionManager) : List Op × Bool :=
  let newPartnerCount : Int := cm.initChannelTarget - (cm.openChannels.length : Int)
  if newPartnerCount ≤ 0 then ([], true)
  else addNewPartnersLoop env cm cm.initialFundingPerPartner (cm.findNewPartners newPartnerCount.toNat)

/-- Connect: rejects funds <= 0 with an error and no effect; otherwise clears
the blocked mark, records the policy parameters, opens a bootstrap channel when
the graph has no nodes (errors from that call are only logged), records funds
and runs addNewPartners. Returns the new record, the ledger calls issued, and
the error result. -/
def ConnectionManager.Connect (env : ApiEnv) (cm : ConnectionManager)
    (funds initialChannelTarget : Int) (joinableFundsTarget : F64) :
    ConnectionManager × List Op × Option String :=
  if funds ≤ 0 then (cm, [], some "connecting needs a positive value for `funds`")
  else
    let cm2 := { cm with blockedToken := false,
                         initChannelTarget := initialChannelTarget,
                         joinableFundsTarget := joinableFundsTarget }
    let bootOps := if cm2.allNodes.isEmpty then [Op.openChannel cm2.BOOTSTRAP_ADDR] else []
    let cm3 := { cm2 with funds := funds }
    let r := cm3.addNewPartners env
    (cm3, bootOps ++ r.1, if r.2 then none else some "addNewPartners failed")

/-- RetryConnect: returns at once when funds <= 0, when LeaveState holds, when
fundsRemaining <= 0 or when the open-channel count reaches initChannelTarget;
otherwise runs addNewPartners. The record is never modified. -/
def ConnectionManager.RetryConnect (env : ApiEnv) (cm : ConnectionManager) :
    ConnectionManager × List Op :=
  if cm.funds ≤ 0 then (cm, [])
  else if cm.LeaveState then (cm, [])
  else if cm.fundsRemaining ≤ 0 then (cm, [])
  else if cm.initChannelTarget ≤ (cm.openChannels.length : Int) then (cm, [])
  else (cm, (cm.addNewPartners env).1)

/-- JoinChannel: returns at once when funds <= 0 or LeaveState holds; clamps the
partner deposit first to fundsRemaining, then to initialFundingPerPartner; a
nonpositive result is a silent no-op, otherwise api.Deposit is called with the
clamped amount (its error is only logged). -/
def ConnectionManager.JoinChannel (cm : ConnectionManager)
    (partnerAddress : Nat) (partnerDeposit : Int) : List Op :=
  if cm.funds ≤ 0 then []
  else if cm.LeaveState then []
  else
    let remaining := cm.fundsRemaining
    let initial := cm.initialFundingPerPartner
    let j1 := if remaining < partnerDeposit then remaining else partnerDeposit
    let j2 := if initial < j1 then initial else j1
    if j2 ≤ 0 then []
    else [Op.deposit partnerAddress j2]

/-- The partners of the openChannel calls in a ledger-call list. -/
def opensOf (ops : List Op) : List Nat :=
  ops.filterMap (fun o => match o with | Op.openChannel p => some p | _ => none)

/-! ## Data model of the alarm task (src/blockchain/alarmtask.go)

A callback takes the block number and reports whether it returned a non-nil
error. The AlarmTask record keeps lastBlockNumber, the callback slice, and
whether the shouldStop channel has been closed. Block headers are modelled by
their heights (h.Number.Int64()). -/

/-- AlarmCallback: invoked with a block number; the Bool is whether the returned
error is non-nil. -/
def AlarmCallback : Type := Int → Bool

/-- The AlarmTask record. shouldStopClosed tells whether close(shouldStop) has
run; the ethclient handle, the wait duration and the mutex carry no data. -/
structure AlarmTask where
  lastBlockNumber : Int
  shouldStopClosed : Bool
  callback : List AlarmCallback

/-- NewAlarmTask: lastBlockNumber starts at -1, shouldStop is a fresh open
channel, no callbacks registered. -/
def NewAlarmTask : AlarmTask :=
  { lastBlockNumber := -1, shouldStopClosed := false, callback := [] }

/-- RegisterCallback appends to the callback slice. -/
def AlarmTask.RegisterCallback (t : AlarmTask) (cb : AlarmCallback) : AlarmTask :=
  { t with callback := t.callback ++ [cb] }

/-- The guard of the removal loop in RemoveCallback. The Go code takes
addr1 := &c and addr2 := &cb, the addresses of two distinct freshly declared
local variables of a non-zero-size type, and compares addr1 == addr2; in Go two
such addresses are never equal, so the guard is constantly false. -/
def localVarAddrEq (c cb : AlarmCallback) : Bool :=
  false

/-- RemoveCallback: keeps exactly the entries whose loop-local copy address
differs from the address of the argument copy — that is, all of them. -/
def AlarmTask.RemoveCallback (t : AlarmTask) (cb : AlarmCallback) : AlarmTask :=
  { t with callback := t.callback.filter (fun c => !(localVarAddrEq c cb)) }

/-- The body of the header case of the select in waitNewBlock: currentBlock is
set to the received height, every entry of the callback slice is invoked with
it, the entries that returned a non-nil error are collected and RemoveCallback
is called on each of them. -/
def AlarmTask.processHeader (t : AlarmTask) (h : Int) : AlarmTask :=
  let removes := t.callback.filter (fun cb => cb h)
  removes.foldl (fun t2 cb => t2.RemoveCallback cb) t

/-- One call of waitNewBlock in which HeaderByNumber and SubscribeNewHead
succeed and the heights in hs (first the immediately fetched head, then the
subscribed heads) are received before the session ends by a channel error or a
stop. Returns the final task and, per received height, the height paired with
the number of callbacks invoked with it. waitNewBlock never writes
lastBlockNumber, so the record field keeps its old value. -/
def AlarmTask.runHeaders (t : AlarmTask) : List Int → AlarmTask × List (Int × Nat)
  | [] => (t, [])
  | h :: rest =>
    let entry := (h, t.callback.length)
    let r := AlarmTask.runHeaders (t.processHeader h) rest
    (r.1, entry :: r.2)

/-- The retry loop of run: each element of sessions is the header-height list
one waitNewBlock call received before failing with a transient error (run then
sleeps waitTime and retries). The logs concatenate. -/
def AlarmTask.runSessions (t : AlarmTask) : List (List Int) → AlarmTask × List (Int × Nat)
  | [] => (t, [])
  | s :: rest =>
    let r := AlarmTask.runHeaders t s
    let r2 := AlarmTask.runSessions r.1 rest
    (r2.1, r.2 ++ r2.2)

/-- A height list is strictly increasing. -/
def strictlyIncreasing : List Int → Bool
  | [] => true
  | [_] => true
  | a :: b :: rest => decide (a < b) && strictlyIncreasing (b :: rest)

/-- A height list is nondecreasing. -/
def nondecreasing : List Int → Bool
  | [] => true
  | [_] => true
  | a :: b :: rest => decide (a ≤ b) && nondecreasing (b :: rest)

/-- The header streams a sequence of sessions can observe on a non-forking
chain: within one subscription the heights strictly increase, and across the
whole observation the chain height never decreases (a retry starts from the
then-latest head, which may equal the last height already delivered). -/
def nonForkingSessions (sessions : List (List Int)) : Bool :=
  sessions.all (fun s => strictlyIncreasing s) && nondecreasing sessions.flatten

/-- Outcome of a call to Stop. -/
inductive StopOutcome where
  | returned
  | panicked
deriving DecidableEq, Repr

/-- Stop: sends the empty struct on shouldStop and then closes it. A send on a
closed Go channel panics; on the still-open unbuffered channel the send is
received by the select in waitNewBlock and Stop returns after closing. -/
def AlarmTask.Stop (t : AlarmTask) : AlarmTask × StopOutcome :=
  if t.shouldStopClosed then (t, StopOutcome.panicked)
  else ({ t with shouldStopClosed := true }, StopOutcome.returned)

/-! ## Concrete instances used by witnesses -/

/-- An api behaviour in which every ledger call succeeds. -/
def apiAllOk : ApiEnv :=
  { openFails := fun _ => false, graphHas := fun _ => true, depositFails := fun _ => false }

/-- A manager whose open-channel count already meets the channel target. -/
def cmTargetMet : ConnectionManager :=
  { BOOTSTRAP_ADDR := 202, nodeAddress := 1, blockedToken := false
    channels := [⟨ChannelState.opened, 1, 0, 7⟩], allNodes := [7, 8, 9]
    funds := 10, initChannelTarget := 1, joinableFundsTarget := ⟨1, -2⟩ }

/-- A manager with funds 1200, one open channel holding a deposit of 900 (so 300
remains) and a funding target of 1200 * (1 - 0) / 3 = 400 per partner. -/
def cmJoin : ConnectionManager :=
  { BOOTSTRAP_ADDR := 202, nodeAddress := 1, blockedToken := false
    channels := [⟨ChannelState.opened, 900, 2, 9⟩], allNodes := [9, 5]
    funds := 1200, initChannelTarget := 3, joinableFundsTarget := ⟨0, 0⟩ }

/-- The configuration funds = 3, target = 3, reserve fraction 2 ^ (-60)
(a number exactly representable as a binary64). -/
def cmTinyReserve : ConnectionManager :=
  { BOOTSTRAP_ADDR := 202, nodeAddress := 1, blockedToken := false
    channels := [], allNodes := [], funds := 3, initChannelTarget := 3
    joinableFundsTarget := ⟨1, -60⟩ }

/-- The configuration of the spec example: funds = 1000, target = 4, reserve
fraction 0.25. -/
def cmSpecExample : ConnectionManager :=
  { BOOTSTRAP_ADDR := 202, nodeAddress := 1, blockedToken := false
    channels := [], allNodes := [], funds := 1000, initChannelTarget := 4
    joinableFundsTarget := ⟨1, -2⟩ }

/-- A poll sequence on one closed channel that is unsettled at the first poll
and settled at every later poll. -/
def pollSettlesAfterFirst : Nat → List ChannelState :=
  fun t => if t = 0 then [ChannelState.closed] else [ChannelState.settled]

/-- A callback that never returns an error. -/
def cbNoErr : AlarmCallback := fun _ => false

/-- An alarm task with the single registered callback cbNoErr. -/
def tOne : AlarmTask := { lastBlockNumber := -1, shouldStopClosed := false, callback := [cbNoErr] }

/-! ## Helper lemmas -/

/-- RemoveCallback leaves the task unchanged: its guard is constantly false. -/
theorem RemoveCallback_eq_self (t : AlarmTask) (cb : AlarmCallback) : t.RemoveCallback cb = t := by
  simp [AlarmTask.RemoveCallback, localVarAddrEq]

/-- Folding RemoveCallback over any list of callbacks changes nothing. -/
theorem foldl_RemoveCallback (l : List AlarmCallback) (t : AlarmTask) :
    l.foldl (fun t2 cb => t2.RemoveCallback cb) t = t := by
  induction l generalizing t with
  | nil => rfl
  | cons c rest ih => simp [RemoveCallback_eq_self, ih]

/-- processHeader leaves the task record unchanged. -/
theorem processHeader_eq_self (t : AlarmTask) (h : Int) : t.processHeader h = t :=
  foldl_RemoveCallback _ t

/-- Once the found flag of WaitForSettle is set it never clears, and the loop
never returns. -/
theorem waitForSettleLoop_found_none (poll : Nat → List ChannelState) :
    ∀ fuel t, waitForSettleLoop poll true t fuel = none := by
  intro fuel
  induction fuel with
  | zero => intro t; rfl
  | succ n ih => intro t; simpa [waitForSettleLoop] using ih (t + 1)

/-! ## Claims -/

/-- Claim C1 (code bug): WaitForSettle does not return as soon as every closed
channel reports settled. With one channel that is unsettled only at the very
first poll and settled from the second poll on, the loop never exits, for every
amount of fuel: the found flag is declared once before the outer loop and never
reset, so one early unsettled observation keeps the loop spinning forever. -/
theorem WaitForSettle_diverges_once_unsettled_seen (fuel : Nat) :
    ConnectionManager.WaitForSettle pollSettlesAfterFirst fuel = none ∧
    (∀ t, 0 < t → pollSettlesAfterFirst t = [ChannelState.settled]) := by
  constructor
  · cases fuel with
    | zero => rfl
    | succ n =>
      have h1 : waitForSettleLoop pollSettlesAfterFirst false 0 (n + 1) =
          waitForSettleLoop pollSettlesAfterFirst true 1 n := by
        simp [waitForSettleLoop, pollSettlesAfterFirst]
      simpa [ConnectionManager.WaitForSettle, h1] using
        waitForSettleLoop_found_none pollSettlesAfterFirst n 1
  · intro t ht
    have : t ≠ 0 := by omega
    simp [pollSettlesAfterFirst, this]

/-- Claim C2 (code bug): a callback whose invocation returns a non-nil error is
not in fact deregistered. RemoveCallback compares the addresses of two fresh
local variables and therefore never deletes anything, the callback list survives
every block unchanged, and a task with one registered callback still invokes one
callback at the following block h + 1. -/
theorem erroring_callback_not_removed (t : AlarmTask) (cb : AlarmCallback) (h : Int) :
    t.RemoveCallback cb = t ∧
    (t.processHeader h).callback = t.callback ∧
    (t.runHeaders [h, h + 1]).2 = [(h, t.callback.length), (h + 1, t.callback.length)] := by
  refine ⟨RemoveCallback_eq_self t cb, by rw [processHeader_eq_self], ?_⟩
  simp [AlarmTask.runHeaders, processHeader_eq_self]

/-- Claim C7: Connect with nonpositive funds fails synchronously with the
invalid-argument error, leaves the manager record (blocked mark, funds, channel
target, joinable-funds target) unchanged and issues no ledger call. -/
theorem Connect_rejects_nonpositive_funds (env : ApiEnv) (cm : ConnectionManager)
    (funds target : Int) (jft : F64) (h : funds ≤ 0) :
    ConnectionManager.Connect env cm funds target jft =
      (cm, [], some "connecting needs a positive value for `funds`") := by
  simp [ConnectionManager.Connect, h]

/-- Witness for C7 at funds = 0. -/
theorem Connect_rejects_nonpositive_funds_witness :
    (0 : Int) ≤ 0 ∧
    ConnectionManager.Connect apiAllOk cmTargetMet 0 3 ⟨1, -2⟩ =
      (cmTargetMet, [], some "connecting needs a positive value for `funds`") :=
  ⟨by decide, Connect_rejects_nonpositive_funds apiAllOk cmTargetMet 0 3 ⟨1, -2⟩ (by decide)⟩

/-- Claim C9: RetryConnect is a no-op — record unchanged and no ledger call —
when funds are nonpositive, when LeaveState holds, when no undeposited funds
remain, or when the open-channel count has reached the channel target. -/
theorem RetryConnect_noop_conditions (env : ApiEnv) (cm : ConnectionManager)
    (h : cm.funds ≤ 0 ∨ cm.LeaveState = true ∨ cm.fundsRemaining ≤ 0 ∨
      cm.initChannelTarget ≤ (cm.openChannels.length : Int)) :
    ConnectionManager.RetryConnect env cm = (cm, []) := by
  unfold ConnectionManager.RetryConnect
  split_ifs with h1 h2 h3 h4
  · rfl
  · rfl
  · rfl
  · rfl
  · rcases h with h | h | h | h
    · exact absurd h h1
    · rw [h] at h2; exact absurd rfl h2
    · exact absurd h h3
    · exact absurd h h4

/-- Witness for C9: the open-channel count of cmTargetMet equals its target. -/
theorem RetryConnect_noop_conditions_witness :
    cmTargetMet.initChannelTarget ≤ (cmTargetMet.openChannels.length : Int) ∧
    ConnectionManager.RetryConnect apiAllOk cmTargetMet = (cmTargetMet, []) :=
  ⟨by decide, RetryConnect_noop_conditions apiAllOk cmTargetMet (Or.inr (Or.inr (Or.inr (by decide))))⟩

/-- Claim C10: the first Stop on a task whose shouldStop channel is still open
returns after closing the channel, and a second Stop on the same task panics
with a send on a closed channel. -/
theorem Stop_twice_panics (t : AlarmTask) (h : t.shouldStopClosed = false) :
    t.Stop.2 = StopOutcome.returned ∧
    t.Stop.1.shouldStopClosed = true ∧
    t.Stop.1.Stop.2 = StopOutcome.panicked := by
  simp [AlarmTask.Stop, h]

/-- Witness for C10 on a freshly created task. -/
theorem Stop_twice_panics_witness :
    NewAlarmTask.Stop.2 = StopOutcome.returned ∧
    NewAlarmTask.Stop.1.shouldStopClosed = true ∧
    NewAlarmTask.Stop.1.Stop.2 = StopOutcome.panicked :=
  Stop_twice_panics NewAlarmTask rfl

/-- Claim C4: with positive funds and outside the leaving state, JoinChannel
deposits exactly the minimum of remaining funds, per-partner funding target and
the partner deposit — never more than the partner deposit — and deposits
nothing when that minimum is not positive. -/
theorem JoinChannel_deposits_binding_minimum (cm : ConnectionManager)
    (p : Nat) (pd : Int) (h1 : 0 < cm.funds) (h2 : cm.LeaveState = false) :
    (0 < min (min cm.fundsRemaining cm.initialFundingPerPartner) pd →
      ConnectionManager.JoinChannel cm p pd =
        [Op.deposit p (min (min cm.fundsRemaining cm.initialFundingPerPartner) pd)]) ∧
    (min (min cm.fundsRemaining cm.initialFundingPerPartner) pd ≤ 0 →
      ConnectionManager.JoinChannel cm p pd = []) ∧
    min (min cm.fundsRemaining cm.initialFundingPerPartner) pd ≤ pd := by
  have hf : ¬ cm.funds ≤ 0 := by omega
  have hkey :
      (if cm.initialFundingPerPartner < (if cm.fundsRemaining < pd then cm.fundsRemaining else pd)
        then cm.initialFundingPerPartner
        else if cm.fundsRemaining < pd then cm.fundsRemaining else pd) =
      min (min cm.fundsRemaining cm.initialFundingPerPartner) pd := by
    simp only [min_def]
    split_ifs <;> omega
  refine ⟨?_, ?_, min_le_right _ _⟩
  · intro hm
    simp only [ConnectionManager.JoinChannel, hf, if_false, h2, Bool.false_eq_true, hkey]
    rw [if_neg (by omega)]
  · intro hm
    simp only [ConnectionManager.JoinChannel, hf, if_false, h2, Bool.false_eq_true, hkey]
    rw [if_pos hm]

/-- Witness for C4: partner deposit 500, remaining 300, per-partner target 400
deposits exactly 300. -/
theorem JoinChannel_deposits_binding_minimum_witness :
    (0 < min (min cmJoin.fundsRemaining cmJoin.initialFundingPerPartner) 500 →
      ConnectionManager.JoinChannel cmJoin 5 500 =
        [Op.deposit 5 (min (min cmJoin.fundsRemaining cmJoin.initialFundingPerPartner) 500)]) ∧
    (min (min cmJoin.fundsRemaining cmJoin.initialFundingPerPartner) 500 ≤ 0 →
      ConnectionManager.JoinChannel cmJoin 5 500 = []) ∧
    min (min cmJoin.fundsRemaining cmJoin.initialFundingPerPartner) 500 ≤ 500 :=
  JoinChannel_deposits_binding_minimum cmJoin 5 500 (by decide) (by decide)

/-- The spec example of C4 evaluated: remaining 300, target 400, partner 500
gives a deposit of exactly 300. -/
theorem JoinChannel_example_300 :
    ConnectionManager.JoinChannel cmJoin 5 500 = [Op.deposit 5 300] := by decide

/-- Claim C6: Leave first marks the token network blocked; the channels it
closes are exactly the open ones when onlyReceiving is false, and exactly the
open ones with at least one received transfer when onlyReceiving is true. -/
theorem Leave_blocks_and_closes_exactly (cm : ConnectionManager) (onlyReceiving : Bool) :
    (cm.Leave onlyReceiving).1.blockedToken = true ∧
    ∀ c : Channel, c ∈ (cm.Leave onlyReceiving).2.1 ↔
      (c ∈ cm.openChannels ∧ (onlyReceiving = true → 0 < c.receivedTransfers)) := by
  unfold ConnectionManager.Leave ConnectionManager.closeAll
  by_cases ht : 0 < cm.initChannelTarget <;>
    cases onlyReceiving <;>
      simp [ht, ConnectionManager.receivingChannels, ConnectionManager.openChannels,
        List.mem_filter, and_assoc] <;>
      exact fun c _ => and_comm

/-- Claim C5 counterexample: with funds 3, target 3 and the reserve fraction
2 ^ (-60), the computed per-channel funding is 1, but the exact integer floor of
funds * (1 - reserve) / target is 0: the float64 subtraction 1 - 2 ^ (-60)
rounds to 1.0, so the claimed equality with the exact floor fails. -/
theorem initialFundingPerPartner_not_exact_floor :
    cmTinyReserve.initialFundingPerPartner = 1 ∧
    Int.floor ((cmTinyReserve.funds : ℚ) * (1 - f64val cmTinyReserve.joinableFundsTarget) /
      (cmTinyReserve.initChannelTarget : ℚ)) = 0 ∧
    (1 : Int) ≠ 0 := by
  refine ⟨by decide, ?_, by decide⟩
  show Int.floor ((((3 : Int) : ℚ)) * (1 - f64val ⟨1, -60⟩) / (((3 : Int) : ℚ))) = 0
  have hv : f64val ⟨1, -60⟩ = (2 : ℚ) ^ (-60 : ℤ) := by
    simp [f64val]
  rw [hv]
  have h60 : (2 : ℚ) ^ (-60 : ℤ) = ((2 ^ 60 : ℚ))⁻¹ := by
    rw [zpow_neg]
    norm_num
  have h3 : (((3 : Int) : ℚ)) * (1 - (2 : ℚ) ^ (-60 : ℤ)) / (((3 : Int) : ℚ)) =
      1 - ((2 ^ 60 : ℚ))⁻¹ := by
    rw [h60]
    push_cast
    ring
  rw [h3, Int.floor_eq_iff]
  norm_num

/-- opensOf distributes over concatenation. -/
theorem opensOf_append (a b : List Op) : opensOf (a ++ b) = opensOf a ++ opensOf b := by
  simp [opensOf]

/-- openAndDeposit opens a channel with exactly the requested partner. -/
theorem opensOf_openAndDeposit (env : ApiEnv) (cm : ConnectionManager) (p : Nat) (amt : Int) :
    opensOf (cm.openAndDeposit env p amt).1 = [p] := by
  unfold ConnectionManager.openAndDeposit
  split_ifs <;> rfl

/-- The partners opened by the loop of addNewPartners form a sublist of the
selected partner list. -/
theorem opensOf_loop_sublist (env : ApiEnv) (cm : ConnectionManager) (amt : Int) :
    ∀ ps : List Nat, List.Sublist (opensOf (addNewPartnersLoop env cm amt ps).1) ps := by
  intro ps
  induction ps with
  | nil => simp [addNewPartnersLoop, opensOf]
  | cons p rest ih =>
    unfold addNewPartnersLoop
    cases hok : (cm.openAndDeposit env p amt).2 with
    | true =>
      simpa [hok, opensOf_append, opensOf_openAndDeposit] using List.Sublist.cons₂ p ih
    | false =>
      simp only [hok, Bool.false_eq_true, if_false, opensOf_openAndDeposit]
      exact List.Sublist.cons₂ p (List.nil_sublist rest)

/-- findNewPartners returns at most the requested number of partners. -/
theorem findNewPartners_length_le (cm : ConnectionManager) (n : Nat) :
    (cm.findNewPartners n).length ≤ n := by
  simp only [ConnectionManager.findNewPartners]
  split
  · simp [List.length_take]
  · omega

/-- Every partner found by findNewPartners is a graph node distinct from the
own node, from the bootstrap placeholder and from every open-channel partner. -/
theorem findNewPartners_mem (cm : ConnectionManager) (n : Nat) (p : Nat)
    (hp : p ∈ cm.findNewPartners n) :
    p ∈ cm.allNodes ∧ p ≠ cm.nodeAddress ∧ p ≠ cm.BOOTSTRAP_ADDR ∧
      p ∉ cm.openChannels.map (fun c => c.partnerAddress) := by
  simp only [ConnectionManager.findNewPartners] at hp
  have hav : p ∈ cm.allNodes.filter (fun x =>
      !((cm.openChannels.map (fun c => c.partnerAddress) ++
        [cm.BOOTSTRAP_ADDR, cm.nodeAddress]).contains x)) := by
    split at hp
    · exact List.take_subset _ _ hp
    · exact hp
  simp [List.mem_filter, List.contains, List.elem_eq_mem, not_or] at hav
  simp only [List.mem_map, not_exists, not_and]
  tauto

/-- Claim C8: one run of the channel-opening step (addNewPartners, called by
Connect and RetryConnect) opens channels with at most initChannelTarget minus
the open-channel count new partners, and every partner it opens is a node of
the token-network graph distinct from the own address, from the bootstrap
placeholder, and from the partners of the already-open channels. -/
theorem addNewPartners_partner_discipline (env : ApiEnv) (cm : ConnectionManager) :
    (opensOf (ConnectionManager.addNewPartners env cm).1).length ≤
      (cm.initChannelTarget - (cm.openChannels.length : Int)).toNat ∧
    ∀ p ∈ opensOf (ConnectionManager.addNewPartners env cm).1,
      p ∈ cm.allNodes ∧ p ≠ cm.nodeAddress ∧ p ≠ cm.BOOTSTRAP_ADDR ∧
      p ∉ cm.openChannels.map (fun c => c.partnerAddress) := by
  simp only [ConnectionManager.addNewPartners]
  split
  · simp [opensOf]
  · constructor
    · exact le_trans (opensOf_loop_sublist env cm _ _).length_le (findNewPartners_length_le cm _)
    · intro p hp
      exact findNewPartners_mem cm _ p ((opensOf_loop_sublist env cm _ _).subset hp)

/-- Every received header is delivered to the callbacks: the heights of the
invocation log of one waitNewBlock session are the received heights. -/
theorem runHeaders_heights (t : AlarmTask) (hs : List Int) :
    ((t.runHeaders hs).2).map Prod.fst = hs := by
  induction hs generalizing t with
  | nil => rfl
  | cons h rest ih => simp [AlarmTask.runHeaders, ih]

/-- The heights delivered across retry sessions are the concatenation of the
session header streams. -/
theorem runSessions_heights (t : AlarmTask) (ss : List (List Int)) :
    ((t.runSessions ss).2).map Prod.fst = ss.flatten := by
  induction ss generalizing t with
  | nil => rfl
  | cons s rest ih => simp [AlarmTask.runSessions, runHeaders_heights, ih]

/-- Claim C3 counterexample: a non-forking observation in which the
subscription fails after delivering the latest block 5 and the retry fetches
the still-latest block 5 again. The single registered (never-erroring) callback
is invoked twice with height 5: the claimed at-most-once-per-height,
strictly-increasing delivery fails across a transient-failure retry, because
waitNewBlock never updates lastBlockNumber. -/
theorem alarm_repeats_height_after_retry :
    nonForkingSessions [[5], [5]] = true ∧
    (AlarmTask.runSessions tOne [[5], [5]]).2 = [(5, 1), (5, 1)] ∧
    strictlyIncreasing (((AlarmTask.runSessions tOne [[5], [5]]).2).map Prod.fst) = false := by
  refine ⟨by decide, by decide, by decide⟩

/-- Claim C3 amended: every received header is delivered to each registered
callback exactly once, in arrival order; the heights passed to a callback are
strictly increasing provided the whole observed header stream is — which holds
within any single subscription on a non-forking chain, but can fail at a retry
boundary, where the then-latest height may be delivered a second time. -/
theorem alarm_heights_increase_when_stream_strict (t : AlarmTask) (ss : List (List Int))
    (h : strictlyIncreasing ss.flatten = true) :
    ((t.runSessions ss).2).map Prod.fst = ss.flatten ∧
    strictlyIncreasing (((t.runSessions ss).2).map Prod.fst) = true :=
  ⟨runSessions_heights t ss, by rw [runSessions_heights]; exact h⟩

/-- Witness for the amended C3 on the stream 3, then 4 and 5 after a retry. -/
theorem alarm_heights_increase_when_stream_strict_witness :
    strictlyIncreasing ([[3], [4, 5]] : List (List Int)).flatten = true ∧
    (((AlarmTask.runSessions tOne [[3], [4, 5]]).2).map Prod.fst =
        ([[3], [4, 5]] : List (List Int)).flatten ∧
      strictlyIncreasing (((AlarmTask.runSessions tOne [[3], [4, 5]]).2).map Prod.fst) = true) :=
  ⟨by decide, alarm_heights_increase_when_stream_strict tOne [[3], [4, 5]] (by decide)⟩

/-- Claim C5 amended: the per-channel funding is the int64 truncation of the
binary64 evaluation of float64(funds) * (1 - reserve) / float64(target); it
coincides with the exact integer floor whenever the binary64 operations are
exact, as in the spec example funds = 1000, target = 4, reserve = 0.25, where
both equal 187. -/
theorem initialFundingPerPartner_spec_example_187 :
    cmSpecExample.initialFundingPerPartner = 187 ∧
    Int.floor ((cmSpecExample.funds : ℚ) * (1 - f64val cmSpecExample.joinableFundsTarget) /
      (cmSpecExample.initChannelTarget : ℚ)) = 187 := by
  refine ⟨by decide, ?_⟩
  show Int.floor ((((1000 : Int) : ℚ)) * (1 - f64val ⟨1, -2⟩) / (((4 : Int) : ℚ))) = 187
  have hv : f64val ⟨1, -2⟩ = (1 : ℚ) / 4 := by
    rw [f64val]
    rw [show (-2 : Int) = -((2 : Nat) : Int) by norm_num, zpow_neg]
    norm_num
  have h4 : (((1000 : Int) : ℚ)) * (1 - f64val ⟨1, -2⟩) / (((4 : Int) : ℚ)) = (375 : ℚ) / 2 := by
    rw [hv]
    push_cast
    norm_num
  rw [h4, Int.floor_eq_iff]
  norm_num

end RaidenNetwork
